import Mathlib

/-
Verification of the "@NTC" GPS-tracker TCP ingestion endpoint (src/main.py)
against its natural-language specification.

The source is shallowly embedded: Python `bytes` values become `List Nat`
(each element a byte value 0..255), Python slicing `b[lo:hi]` becomes
`slice`, `struct.unpack('<I', ...)` becomes `le32`, and every fallible
operation returns an `Option` whose `none` models the Python control path
on which no value reaches the caller (an exception that is either caught
and logged — the function then returns `None` — or propagates and kills
the connection handler before any further protocol step).
-/

namespace NTC

/-- Byte values of the protocol magic `b"@NTC"` (`@`=64, `N`=78, `T`=84, `C`=67). -/
def magic : List Nat := [64, 78, 84, 67]

/-- Byte values of the fixed acknowledgement payload `b"*<S"` that the server
sends in its handshake reply (`*`=42, `<`=60, `S`=83). -/
def ack : List Nat := [42, 60, 83]

/-- Python slice `l[lo:hi]` for `0 ≤ lo ≤ hi` (clamping at the end of the
list exactly as Python does). -/
def slice (lo hi : Nat) (l : List Nat) : List Nat := (l.drop lo).take (hi - lo)

/-- Model of `xor_sum` from src/main.py lines 13-17: running XOR of every byte of the
buffer, starting from 0. -/
def xor_sum (buffer : List Nat) : Nat := buffer.foldl (fun a b => a ^^^ b) 0

/-- The 16-byte header assembled by `make_handshake` (src/main.py lines 22-39)
before the header-checksum byte at index 15 is filled in: magic, then
`senderId`, then `receiverId`, then the 2-byte little-endian payload length,
then the payload checksum, then a zero placeholder.  (When the id arguments
are not 4 bytes long this list's length differs from 16, exactly as the
Python `bytearray` would.) -/
def handshake_header (receiverId senderId data : List Nat) : List Nat :=
  magic ++ senderId ++ receiverId ++
    [data.length % 256, data.length / 256, xor_sum data, 0]

/-- Model of `make_handshake` from src/main.py lines 19-48.  The whole body runs under
`try ... except Exception: logger.error(...)`, so every internal failure is
logged and the function returns `None`, modelled as `none`:
`len(data).to_bytes(2, "little")` raises `OverflowError` when the payload
length exceeds 65535, and `header[15] = ...` raises `IndexError` when the
assembled header is at most 15 bytes long (ids too short).  On success the
result is the header with the checksum of its first 15 bytes written at
index 15, followed by the payload. -/
def make_handshake (receiverId senderId data : List Nat) : Option (List Nat) :=
  if 65536 ≤ data.length then none
  else if 15 < (handshake_header receiverId senderId data).length then
    some ((handshake_header receiverId senderId data).set 15
      (xor_sum ((handshake_header receiverId senderId data).take 15)) ++ data)
  else none

/-- First index at which the two-byte marker `b"S:"` (`S`=83, `:`=58) occurs,
i.e. the Python `find`/`split` search position used at src/main.py line 63. -/
def findMarker : List Nat → Option Nat
  | [] => none
  | [_] => none
  | a :: b :: rest =>
    if a = 83 ∧ b = 58 then some 0 else (findMarker (b :: rest)).map (· + 1)

/-- Element `[1]` of Python's `data.split("S:")`: the characters strictly
between the end of the first occurrence of `"S:"` and the start of the next
occurrence (or the end of the buffer when the marker occurs only once).
`none` models the `IndexError` raised when the marker is absent. -/
def split_after_first (data : List Nat) : Option (List Nat) :=
  match findMarker data with
  | none => none
  | some i =>
    match findMarker (data.drop (i + 2)) with
    | none => some (data.drop (i + 2))
    | some j => some ((data.drop (i + 2)).take j)

/-- Python `bytes.decode('ascii')` succeeds exactly when every byte is below
128. -/
def isAscii (l : List Nat) : Bool := l.all (fun b => decide (b < 128))

/-- The inbound-handshake processing of `handle` (src/main.py lines 54-63):
an empty read returns without replying; otherwise `idobj = data[4:8]` and
`iddc = data[8:12]` are extracted, and the device id is
`data.decode('ascii').split("S:")[1]`.  `none` models every path on which no
reply is ever produced: empty read, `UnicodeDecodeError` from a non-ASCII
byte, or `IndexError` when `"S:"` is absent (both exceptions are uncaught —
the `except` clause only handles `asyncio.IncompleteReadError`).  Note that
the code never inspects `data[0:4]` (the magic) and never verifies either
checksum. -/
def handle_decode (data : List Nat) : Option (List Nat × List Nat × List Nat) :=
  if data = [] then none
  else if isAscii data then
    match split_after_first data with
    | some dev => some (slice 4 8 data, slice 8 12 data, dev)
    | none => none
  else none

/-- The full handshake phase of `handle` (src/main.py lines 54-71): decode the
inbound buffer, then build the reply `make_handshake(idobj, iddc, b"*<S")`
(note the argument order: the inbound sender id `idobj` becomes the
`receiverId` parameter and the inbound receiver id `iddc` the `senderId`
parameter, so the reply's id fields are swapped) and write it.  `none`
additionally covers `make_handshake` returning `None`, in which case
`writer.write(None)` raises `TypeError` and no reply is sent.  On success the
result pairs the reply frame with the captured device identifier that the
streaming phase will use. -/
def handle_step (data : List Nat) : Option (List Nat × List Nat) :=
  match handle_decode data with
  | none => none
  | some (idobj, iddc, dev) =>
    match make_handshake idobj iddc ack with
    | none => none
    | some reply => some (reply, dev)

/-- Model of `struct.unpack` with format `'<I'`: requires exactly 4 bytes and yields the
little-endian unsigned 32-bit value; `none` models `struct.error`. -/
def le32 (l : List Nat) : Option Nat :=
  match l with
  | [a, b, c, d] => some (a + 256 * b + 65536 * c + 16777216 * d)
  | _ => none

/-- The telemetry-frame field extraction of `parse_device_data`
(src/main.py lines 85-90): four little-endian u32 reads at the fixed offsets
`[8:12]` (timestamp epoch), `[20:24]` (latitude raw), `[24:28]` (longitude
raw) and `[28:32]` (speed).  Any short slice raises `struct.error`,
modelled as `none`. -/
def decode_telemetry (more_data : List Nat) : Option (Nat × Nat × Nat × Nat) :=
  match le32 (slice 8 12 more_data) with
  | none => none
  | some ts =>
    match le32 (slice 20 24 more_data) with
    | none => none
    | some lat =>
      match le32 (slice 24 28 more_data) with
      | none => none
      | some lon =>
        match le32 (slice 28 32 more_data) with
        | none => none
        | some sp => some (ts, lat, lon, sp)

/-- The little-endian u32 value read at byte offset `off`, written directly in
terms of the individual bytes of the frame (so that a statement using it is
manifestly independent of every byte outside `[off : off+4]`). -/
def leVal (off : Nat) (l : List Nat) : Nat :=
  l.getD off 0 + 256 * l.getD (off + 1) 0 + 65536 * l.getD (off + 2) 0 +
    16777216 * l.getD (off + 3) 0

/-- The structured telemetry record handed to the sink, i.e. the dictionary
built by `pack_data` (src/main.py lines 99-107); its `json.dumps` rendering
belongs to the external sink and is not modelled. -/
structure Record where
  device_id : List Nat
  timestamp : List Nat
  latitude : ℚ
  longitude : ℚ
  speed : Nat
deriving DecidableEq

/-- Model of `pack_data` from src/main.py lines 99-107: latitude and longitude are the
raw wire integers divided by 1,000,000 (Python's true division, modelled
exactly in ℚ); device id, rendered timestamp and speed pass through
unchanged. -/
def pack_data (device_id timestamp : List Nat) (latitude longitude speed : Nat) :
    Record :=
  { device_id := device_id
    timestamp := timestamp
    latitude := (latitude : ℚ) / 1000000
    longitude := (longitude : ℚ) / 1000000
    speed := speed }

/-- The external `datetime` collaborator as used by `parse_device_data`:
`yearOf e` is `datetime.fromtimestamp(e).year`, `currentYear` is
`datetime.now().year` at processing time, and `render e` is
`str(datetime.fromtimestamp(e))`. -/
structure TimeEnv where
  yearOf : Nat → Int
  currentYear : Int
  render : Nat → List Nat

/-- States of one connection's session controller. -/
inductive SessState where
  | AwaitingHandshake : SessState
  | Streaming : SessState
  | Closed : SessState
deriving DecidableEq

/-- Observable outcomes of one streaming-loop iteration: the malformed-frame
error log, or a record emitted to the sink. -/
inductive Event where
  | MalformedFrame : Event
  | Emit : Record → Event
deriving DecidableEq

/-- One iteration of the streaming loop of `parse_device_data`
(src/main.py lines 79-95): an empty read closes the session (normal
disconnect); a `struct.error` while unpacking logs the broken-data error and
breaks out of the loop (session closed); otherwise the record passes the
year sanity filter `datetime.now().year == timestamp.year` and is emitted,
or is silently dropped, and the loop continues in either case. -/
def streamStep (env : TimeEnv) (device_id more_data : List Nat) :
    List Event × SessState :=
  if more_data = [] then ([], SessState.Closed)
  else
    match decode_telemetry more_data with
    | none => ([Event.MalformedFrame], SessState.Closed)
    | some (ts, lat, lon, sp) =>
      if env.currentYear = env.yearOf ts then
        ([Event.Emit (pack_data device_id (env.render ts) lat lon sp)],
          SessState.Streaming)
      else ([], SessState.Streaming)

/-- The 32-byte example telemetry frame of the specification: zeros except
`[20:24]` = 64, `[24:28]` = 42 and `[28:32]` = 5 (little-endian). -/
def exampleFrame : List Nat :=
  [0, 0, 0, 0, 0, 0, 0, 0,
   0, 0, 0, 0, 0, 0, 0, 0,
   0, 0, 0, 0, 64, 0, 0, 0,
   42, 0, 0, 0, 5, 0, 0, 0]

/-- A concrete instance of the external datetime collaborator, used to
witness the session-controller theorems: every epoch falls in 1970 and the
processing-time year is 2026. -/
def envW : TimeEnv :=
  { yearOf := fun _ => 1970, currentYear := 2026, render := fun _ => [] }

lemma length_eq_four {l : List Nat} (h : l.length = 4) :
    ∃ a b c d, l = [a, b, c, d] := by
  rcases l with _ | ⟨a, l⟩
  · simp at h
  rcases l with _ | ⟨b, l⟩
  · simp at h
  rcases l with _ | ⟨c, l⟩
  · simp at h
  rcases l with _ | ⟨d, l⟩
  · simp at h
  rcases l with _ | ⟨e, l⟩
  · exact ⟨a, b, c, d, rfl⟩
  · simp at h

lemma foldl_xor_lt (l : List Nat) :
    ∀ acc : Nat, acc < 256 → (∀ b ∈ l, b < 256) →
      l.foldl (fun a b => a ^^^ b) acc < 256 := by
  induction l with
  | nil => intro acc hacc _; simpa using hacc
  | cons x xs ih =>
    intro acc hacc hall
    have hx : x < 256 := hall x (List.mem_cons_self x xs)
    have hstep : acc ^^^ x < 256 := by
      have h8 : (256 : Nat) = 2 ^ 8 := by norm_num
      rw [h8] at hacc hx ⊢
      exact Nat.xor_lt_two_pow hacc hx
    simpa using ih (acc ^^^ x) hstep fun b hb => hall b (List.mem_cons_of_mem x hb)

lemma le32_some_length {l : List Nat} {v : Nat} (h : le32 l = some v) :
    l.length = 4 := by
  rcases l with _ | ⟨a, l⟩
  · simp [le32] at h
  rcases l with _ | ⟨b, l⟩
  · simp [le32] at h
  rcases l with _ | ⟨c, l⟩
  · simp [le32] at h
  rcases l with _ | ⟨d, l⟩
  · simp [le32] at h
  rcases l with _ | ⟨e, l⟩
  · rfl
  · simp [le32] at h

lemma le32_slice (off : Nat) (l : List Nat) (h : off + 4 ≤ l.length) :
    le32 (slice off (off + 4) l) = some (leVal off l) := by
  induction off generalizing l with
  | zero =>
    rcases l with _ | ⟨a, l⟩
    · simp at h
    rcases l with _ | ⟨b, l⟩
    · simp at h
    rcases l with _ | ⟨c, l⟩
    · simp at h
    rcases l with _ | ⟨d, l⟩
    · simp at h
    rfl
  | succ off ih =>
    rcases l with _ | ⟨a, l⟩
    · simp at h
    have h' : off + 4 ≤ l.length := by
      simp only [List.length_cons] at h
      omega
    have hs : slice (off + 1) (off + 1 + 4) (a :: l) = slice off (off + 4) l := by
      simp [slice]
    rw [hs, ih l h']
    simp [leVal, List.getD_cons_succ]

lemma decode_telemetry_eq (data : List Nat) (h : 32 ≤ data.length) :
    decode_telemetry data =
      some (leVal 8 data, leVal 20 data, leVal 24 data, leVal 28 data) := by
  have h8 := le32_slice 8 data (by omega)
  have h20 := le32_slice 20 data (by omega)
  have h24 := le32_slice 24 data (by omega)
  have h28 := le32_slice 28 data (by omega)
  simp only [show (8 : Nat) + 4 = 12 from rfl, show (20 : Nat) + 4 = 24 from rfl,
    show (24 : Nat) + 4 = 28 from rfl, show (28 : Nat) + 4 = 32 from rfl]
    at h8 h20 h24 h28
  simp [decode_telemetry, h8, h20, h24, h28]

lemma decode_telemetry_none (data : List Nat) (h : data.length < 32) :
    decode_telemetry data = none := by
  have h28 : le32 (slice 28 32 data) = none := by
    rcases e : le32 (slice 28 32 data) with _ | v
    · rfl
    · have h4 := le32_some_length e
      simp [slice] at h4
      omega
  rcases e1 : le32 (slice 8 12 data) with _ | ts <;>
    rcases e2 : le32 (slice 20 24 data) with _ | lat <;>
      rcases e3 : le32 (slice 24 28 data) with _ | lon <;>
        simp [decode_telemetry, e1, e2, e3, h28]

lemma decode_telemetry_some_length {data : List Nat} {t : Nat × Nat × Nat × Nat}
    (h : decode_telemetry data = some t) : 32 ≤ data.length := by
  by_contra hlt
  rw [decode_telemetry_none data (by omega)] at h
  exact Option.noConfusion h

/-- C9: for every byte-string input (every element below 256), `xor_sum`
returns a value in 0..255, so the single byte `make_handshake` appends as the
payload checksum and the single byte it assigns at header index 15 are always
in range for a `bytearray` and those operations can never fail. -/
theorem xor_sum_byte_range (buf : List Nat) (h : ∀ b ∈ buf, b < 256) :
    xor_sum buf < 256 :=
  foldl_xor_lt buf 0 (by norm_num) h

/-- Witness for `xor_sum_byte_range` at the concrete buffer `[1, 2, 3]`. -/
theorem xor_sum_byte_range_witness : xor_sum [1, 2, 3] < 256 :=
  xor_sum_byte_range [1, 2, 3] (by decide)

/-- C3 counterexample: with 5-byte sender/receiver ids and an empty payload,
`make_handshake` does not fail — it returns a frame, and an invalid one: its
length is 18, not `16 + len(payload) = 16`.  This refutes the claim that the
encoder errors out on non-4-byte ids and never returns an invalid frame. -/
theorem make_handshake_bad_ids_counterexample :
    ([1, 1, 1, 1, 1] : List Nat).length ≠ 4 ∧
      (make_handshake [1, 1, 1, 1, 1] [2, 2, 2, 2, 2] []).isSome = true ∧
      (make_handshake [1, 1, 1, 1, 1] [2, 2, 2, 2, 2] []).map List.length =
        some 18 := by
  decide

/-- C3 amended: a payload longer than 65535 bytes makes `make_handshake`
return no frame at all (the `OverflowError` from the 2-byte length field is
caught by the enclosing handler, logged, and the function returns `None` —
the failure is not surfaced as a typed `InvalidArgument` error); sender and
receiver id lengths are never validated, and ids that are not exactly 4 bytes
can still produce a returned (invalid) frame. -/
theorem make_handshake_overlong_payload (r s d : List Nat)
    (hd : 65535 < d.length) : make_handshake r s d = none := by
  unfold make_handshake
  rw [if_pos (by omega : 65536 ≤ d.length)]

/-- Witness for `make_handshake_overlong_payload` at a concrete 65536-byte
payload. -/
theorem make_handshake_overlong_payload_witness :
    make_handshake [0, 0, 0, 0] [0, 0, 0, 0] (List.replicate 65536 0) = none :=
  make_handshake_overlong_payload [0, 0, 0, 0] [0, 0, 0, 0]
    (List.replicate 65536 0) (by rw [List.length_replicate]; norm_num)

/-- C6: for every telemetry frame of at least 32 bytes the decoder yields
exactly the four little-endian u32 values at offsets `[8:12]`, `[20:24]`,
`[24:28]` and `[28:32]` — `leVal` reads only those byte positions, so all
other bytes are ignored; `pack_data` divides the raw latitude and longitude
by 1,000,000 and passes the speed through unchanged; and the specification's
32-byte example frame decodes to timestamp epoch 0, latitude raw 64,
longitude raw 42 and speed 5. -/
theorem telemetry_fixed_offsets :
    (∀ data : List Nat, 32 ≤ data.length →
        decode_telemetry data =
          some (leVal 8 data, leVal 20 data, leVal 24 data, leVal 28 data)) ∧
      (∀ dev ts : List Nat, ∀ lat lon sp : Nat,
        (pack_data dev ts lat lon sp).latitude = (lat : ℚ) / 1000000 ∧
          (pack_data dev ts lat lon sp).longitude = (lon : ℚ) / 1000000 ∧
          (pack_data dev ts lat lon sp).speed = sp) ∧
      decode_telemetry exampleFrame = some (0, 64, 42, 5) := by
  refine ⟨decode_telemetry_eq, fun dev ts lat lon sp => ⟨rfl, rfl, rfl⟩, ?_⟩
  decide

/-- Witness for `telemetry_fixed_offsets`, instantiating its first conjunct
at the specification's concrete 32-byte example frame. -/
theorem telemetry_fixed_offsets_witness :
    decode_telemetry exampleFrame =
      some (leVal 8 exampleFrame, leVal 20 exampleFrame, leVal 24 exampleFrame,
        leVal 28 exampleFrame) :=
  telemetry_fixed_offsets.1 exampleFrame (by decide)

/-- C7: a telemetry frame that decodes successfully but whose decoded
timestamp's year differs from the current calendar year at processing time
produces no sink events at all — the record is discarded by the sanity filter
— and the session stays in `Streaming`. -/
theorem year_filter_discards (env : TimeEnv) (dev data : List Nat)
    (ts lat lon sp : Nat)
    (hdec : decode_telemetry data = some (ts, lat, lon, sp))
    (hyr : env.yearOf ts ≠ env.currentYear) :
    streamStep env dev data = ([], SessState.Streaming) := by
  have hne : data ≠ [] := by
    intro he
    rw [he, decode_telemetry_none [] (by simp)] at hdec
    exact Option.noConfusion hdec
  simp only [streamStep, if_neg hne, hdec]
  rw [if_neg fun h => hyr h.symm]

/-- Witness for `year_filter_discards`: under `envW` every epoch falls in
1970 while the processing year is 2026, so the example frame (epoch 0) is
decoded and then filtered. -/
theorem year_filter_discards_witness :
    streamStep envW [] exampleFrame = ([], SessState.Streaming) :=
  year_filter_discards envW [] exampleFrame 0 64 42 5 (by decide) (by decide)

/-- C8: a nonempty telemetry frame shorter than 32 bytes makes the streaming
loop emit exactly one `MalformedFrame` event and no records, and the session
transitions to `Closed` (the loop breaks, so no further frame is read on the
connection). -/
theorem short_frame_closes (env : TimeEnv) (dev data : List Nat)
    (h1 : data ≠ []) (h2 : data.length < 32) :
    streamStep env dev data = ([Event.MalformedFrame], SessState.Closed) := by
  simp [streamStep, h1, decode_telemetry_none data h2]

/-- Witness for `short_frame_closes` at the concrete one-byte frame `[7]`. -/
theorem short_frame_closes_witness :
    streamStep envW [] [7] = ([Event.MalformedFrame], SessState.Closed) :=
  short_frame_closes envW [] [7] (by decide) (by decide)

lemma findMarker_isSome_iff (l : List Nat) :
    (findMarker l).isSome = true ↔ [83, 58] <:+: l := by
  induction l with
  | nil =>
    constructor
    · intro h
      simp [findMarker] at h
    · rintro ⟨s, t, ht⟩
      simp at ht
  | cons a tl ih =>
    cases tl with
    | nil =>
      constructor
      · intro h
        simp [findMarker] at h
      · rintro ⟨s, t, ht⟩
        have := congrArg List.length ht
        simp at this
        omega
    | cons b r =>
      by_cases hab : a = 83 ∧ b = 58
      · obtain ⟨h1, h2⟩ := hab
        subst h1
        subst h2
        constructor
        · intro _
          exact ⟨[], r, rfl⟩
        · intro _
          simp [findMarker]
      · rw [show findMarker (a :: b :: r) = (findMarker (b :: r)).map (· + 1) by
          simp [findMarker, hab]]
        rw [Option.isSome_map']
        rw [ih]
        constructor
        · rintro ⟨s, t, ht⟩
          exact ⟨a :: s, t, by simp only [List.cons_append]; rw [ht]⟩
        · rintro ⟨s, t, ht⟩
          cases s with
          | nil =>
            simp at ht
            exact absurd ⟨ht.1.symm, ht.2.1.symm⟩ hab
          | cons c s' =>
            simp only [List.cons_append, List.cons.injEq] at ht
            exact ⟨s', t, ht.2⟩

lemma findMarker_append (p q : List Nat) (hp : ¬ [83, 58] <:+: p) :
    findMarker (p ++ 83 :: 58 :: q) = some p.length := by
  induction p with
  | nil => simp [findMarker]
  | cons a p' ih =>
    have hp' : ¬ [83, 58] <:+: p' := by
      rintro ⟨s, t, ht⟩
      exact hp ⟨a :: s, t, by simp only [List.cons_append]; rw [ht]⟩
    cases p' with
    | nil =>
      have hab : ¬ ((a : Nat) = 83 ∧ (83 : Nat) = 58) := by
        rintro ⟨-, h⟩
        exact absurd h (by decide)
      simp [findMarker, hab]
    | cons b p'' =>
      have hab : ¬ (a = 83 ∧ b = 58) := by
        rintro ⟨h1, h2⟩
        exact hp ⟨[], p'', by simp [h1, h2]⟩
      have hrec := ih hp'
      simp only [List.cons_append] at hrec ⊢
      simp [findMarker, hab, hrec]

lemma marker_not_in_empty : ¬ [83, 58] <:+: ([] : List Nat) := by
  rintro ⟨s, t, ht⟩
  simp at ht

lemma findMarker_none (q : List Nat) (hq : ¬ [83, 58] <:+: q) :
    findMarker q = none := by
  rcases e : findMarker q with _ | j
  · rfl
  · exfalso
    apply hq
    rw [← findMarker_isSome_iff, e]
    rfl

lemma drop_after_marker (p X : List Nat) :
    (p ++ 83 :: 58 :: X).drop (p.length + 2) = X := by
  have h : p ++ 83 :: 58 :: X = (p ++ [83, 58]) ++ X := by simp
  have hlen : (p ++ [83, 58]).length = p.length + 2 := by simp
  rw [h, ← hlen, List.drop_left]

lemma split_after_first_single (p q : List Nat) (hp : ¬ [83, 58] <:+: p)
    (hq : ¬ [83, 58] <:+: q) :
    split_after_first (p ++ 83 :: 58 :: q) = some q := by
  simp [split_after_first, findMarker_append p q hp, drop_after_marker,
    findMarker_none q hq]

lemma split_after_first_double (p q u : List Nat) (hp : ¬ [83, 58] <:+: p)
    (hq : ¬ [83, 58] <:+: q) :
    split_after_first (p ++ 83 :: 58 :: (q ++ 83 :: 58 :: u)) = some q := by
  simp [split_after_first, findMarker_append p (q ++ 83 :: 58 :: u) hp,
    drop_after_marker, findMarker_append q u hq]

lemma split_after_first_isSome (l : List Nat) :
    (split_after_first l).isSome = (findMarker l).isSome := by
  unfold split_after_first
  rcases e : findMarker l with _ | i
  · rfl
  · rcases e2 : findMarker (l.drop (i + 2)) with _ | j <;> simp [e2]

lemma make_handshake_explicit (a1 a2 a3 a4 b1 b2 b3 b4 : Nat) (d : List Nat)
    (hd : d.length < 65536) :
    make_handshake [b1, b2, b3, b4] [a1, a2, a3, a4] d =
      some (64 :: 78 :: 84 :: 67 :: a1 :: a2 :: a3 :: a4 :: b1 :: b2 :: b3 :: b4 ::
        d.length % 256 :: d.length / 256 :: xor_sum d ::
        xor_sum [64, 78, 84, 67, a1, a2, a3, a4, b1, b2, b3, b4,
          d.length % 256, d.length / 256, xor_sum d] :: d) := by
  unfold make_handshake
  rw [if_neg (by omega : ¬ 65536 ≤ d.length)]
  rfl

lemma make_handshake_spec (r s d : List Nat) (hs : s.length = 4)
    (hr : r.length = 4) (hd : d.length ≤ 65535) :
    ∃ f, make_handshake r s d = some f ∧ f.length = 16 + d.length ∧
      slice 4 8 f = s ∧ slice 8 12 f = r ∧
      f.getD 14 0 = xor_sum d ∧ f.getD 15 0 = xor_sum (f.take 15) ∧
      f.drop 16 = d := by
  obtain ⟨a1, a2, a3, a4, rfl⟩ := length_eq_four hs
  obtain ⟨b1, b2, b3, b4, rfl⟩ := length_eq_four hr
  rw [make_handshake_explicit a1 a2 a3 a4 b1 b2 b3 b4 d (by omega)]
  refine ⟨_, rfl, ?_, rfl, rfl, rfl, rfl, rfl⟩
  simp only [List.length_cons]
  omega

/-- C2: encoding any 4-byte sender id, 4-byte receiver id and payload of at
most 65535 bytes succeeds, and decoding the resulting frame the way `handle`
does (`idobj = frame[4:8]`, `iddc = frame[8:12]`) recovers exactly the sender
and receiver id bytes; moreover the byte at offset 14 is `xor_sum` of the
payload and the byte at offset 15 is `xor_sum` of the frame's first 15
bytes. -/
theorem handshake_roundtrip (s r d : List Nat) (hs : s.length = 4)
    (hr : r.length = 4) (hd : d.length ≤ 65535) :
    ∃ f, make_handshake r s d = some f ∧
      slice 4 8 f = s ∧ slice 8 12 f = r ∧
      f.getD 14 0 = xor_sum d ∧ f.getD 15 0 = xor_sum (f.take 15) := by
  obtain ⟨f, h1, _, h3, h4, h5, h6, _⟩ := make_handshake_spec r s d hs hr hd
  exact ⟨f, h1, h3, h4, h5, h6⟩

/-- Witness for `handshake_roundtrip` at sender `b"AAAA"`, receiver `b"BBBB"`
and payload `b"S:D"`. -/
theorem handshake_roundtrip_witness :
    ∃ f, make_handshake [66, 66, 66, 66] [65, 65, 65, 65] [83, 58, 68] = some f ∧
      slice 4 8 f = [65, 65, 65, 65] ∧ slice 8 12 f = [66, 66, 66, 66] ∧
      f.getD 14 0 = xor_sum [83, 58, 68] ∧ f.getD 15 0 = xor_sum (f.take 15) :=
  handshake_roundtrip [65, 65, 65, 65] [66, 66, 66, 66] [83, 58, 68]
    (by decide) (by decide) (by decide)

/-- C1 amended: for every inbound handshake frame made of the magic `"@NTC"`,
a 4-byte sender id, a 4-byte receiver id and a remainder containing the
`"S:"` marker, provided additionally that every byte of the frame is ASCII
(below 128; otherwise the handler's `data.decode('ascii')` raises and no
reply is sent at all), `handle` sends a reply of exactly 19 bytes whose bytes
`[4:8]` are the inbound receiver id, whose bytes `[8:12]` are the inbound
sender id (the two id fields swapped), and whose payload (bytes 16 onward) is
the fixed 3-byte acknowledgement `b"*<S"`. -/
theorem handshake_reply_shape (s r rest : List Nat) (hs : s.length = 4)
    (hr : r.length = 4)
    (ha : ∀ b ∈ magic ++ s ++ r ++ rest, b < 128)
    (hm : [83, 58] <:+: (magic ++ s ++ r ++ rest)) :
    ∃ dev reply,
      handle_step (magic ++ s ++ r ++ rest) = some (reply, dev) ∧
        reply.length = 19 ∧ slice 4 8 reply = r ∧ slice 8 12 reply = s ∧
        reply.drop 16 = ack := by
  obtain ⟨a1, a2, a3, a4, rfl⟩ := length_eq_four hs
  obtain ⟨b1, b2, b3, b4, rfl⟩ := length_eq_four hr
  set D := magic ++ [a1, a2, a3, a4] ++ [b1, b2, b3, b4] ++ rest with hD
  have hne : D ≠ [] := by rw [hD]; simp [magic]
  have hAscii : isAscii D = true := by
    rw [hD]
    simp only [isAscii, List.all_eq_true, decide_eq_true_eq]
    exact ha
  have hSome : (findMarker D).isSome = true := (findMarker_isSome_iff _).mpr hm
  have hsplit : (split_after_first D).isSome = true := by
    rw [split_after_first_isSome]
    exact hSome
  obtain ⟨dev, hdev⟩ := Option.isSome_iff_exists.mp hsplit
  have h48 : slice 4 8 D = [a1, a2, a3, a4] := rfl
  have h812 : slice 8 12 D = [b1, b2, b3, b4] := rfl
  have hdec : handle_decode D = some ([a1, a2, a3, a4], [b1, b2, b3, b4], dev) := by
    simp [handle_decode, hne, hAscii, hdev, h48, h812]
  obtain ⟨f, hf1, hf2, hf3, hf4, _, _, hf7⟩ :=
    make_handshake_spec [a1, a2, a3, a4] [b1, b2, b3, b4] ack rfl rfl
      (by decide)
  refine ⟨dev, f, ?_, by simpa [ack] using hf2, hf3, hf4, hf7⟩
  simp [handle_step, hdec, hf1]

/-- C1 counterexample: an inbound frame carrying the magic, a 4-byte sender
id whose first byte is the non-ASCII value 200, a 4-byte receiver id and the
payload `b"S:DEV01"` satisfies the claim's hypotheses, yet the handler
produces no reply at all — `data.decode('ascii')` raises
`UnicodeDecodeError`, which is uncaught — so no 19-byte reply with swapped
ids exists for this frame. -/
theorem handshake_reply_nonascii_counterexample :
    [83, 58] <:+:
        (magic ++ [200, 65, 65, 65] ++ [66, 66, 66, 66] ++
          [83, 58, 68, 69, 86, 48, 49]) ∧
      handle_step
          (magic ++ [200, 65, 65, 65] ++ [66, 66, 66, 66] ++
            [83, 58, 68, 69, 86, 48, 49]) = none := by
  decide

/-- Witness for `handshake_reply_shape` at the inbound frame
`b"@NTC" ++ b"AAAA" ++ b"BBBB" ++ b"S:DEV01"`. -/
theorem handshake_reply_shape_witness :
    ∃ dev reply,
      handle_step (magic ++ [65, 65, 65, 65] ++ [66, 66, 66, 66] ++
          [83, 58, 68, 69, 86, 48, 49]) = some (reply, dev) ∧
        reply.length = 19 ∧ slice 4 8 reply = [66, 66, 66, 66] ∧
        slice 8 12 reply = [65, 65, 65, 65] ∧ reply.drop 16 = ack :=
  handshake_reply_shape [65, 65, 65, 65] [66, 66, 66, 66]
    [83, 58, 68, 69, 86, 48, 49] (by decide) (by decide) (by decide) (by decide)

/-- C4 counterexample: a 15-byte inbound buffer whose first four bytes are
`b"XXXX"` (not the magic `"@NTC"`) is nevertheless decoded successfully and
the session builds a handshake reply — the code never inspects the magic, so
decoding does not fail with `BadMagic`. -/
theorem no_magic_check_counterexample :
    slice 0 4 [88, 88, 88, 88, 65, 65, 65, 65, 66, 66, 66, 66, 83, 58, 68]
        ≠ magic ∧
      (handle_step [88, 88, 88, 88, 65, 65, 65, 65, 66, 66, 66, 66, 83, 58, 68]).isSome
        = true := by
  decide

/-- C4 amended: the inbound handshake decoding never validates the magic
bytes: it succeeds exactly when the buffer is nonempty, is pure ASCII, and
contains the `"S:"` marker — the first four bytes are never compared against
`"@NTC"`, and on any such buffer the session proceeds to build a reply. -/
theorem handshake_decode_ignores_magic (data : List Nat) :
    (handle_decode data).isSome = true ↔
      data ≠ [] ∧ isAscii data = true ∧ [83, 58] <:+: data := by
  by_cases h0 : data = []
  · simp [handle_decode, h0]
  · by_cases hA : isAscii data = true
    · rcases e : split_after_first data with _ | dev
      · have hnm : ¬ [83, 58] <:+: data := by
          rw [← findMarker_isSome_iff, ← split_after_first_isSome, e]
          simp
        simp [handle_decode, h0, hA, e, hnm]
      · have hm : [83, 58] <:+: data := by
          rw [← findMarker_isSome_iff, ← split_after_first_isSome, e]
          rfl
        simp [handle_decode, h0, hA, e, hm]
    · simp [handle_decode, h0, hA]

/-- Witness for `handshake_decode_ignores_magic` at the concrete bad-magic
buffer of `no_magic_check_counterexample`. -/
theorem handshake_decode_ignores_magic_witness :
    (handle_decode [88, 88, 88, 88, 65, 65, 65, 65, 66, 66, 66, 66, 83, 58, 68]).isSome
        = true ↔
      ([88, 88, 88, 88, 65, 65, 65, 65, 66, 66, 66, 66, 83, 58, 68] : List Nat)
          ≠ [] ∧
        isAscii [88, 88, 88, 88, 65, 65, 65, 65, 66, 66, 66, 66, 83, 58, 68]
            = true ∧
        [83, 58] <:+: [88, 88, 88, 88, 65, 65, 65, 65, 66, 66, 66, 66, 83, 58, 68] :=
  handshake_decode_ignores_magic
    [88, 88, 88, 88, 65, 65, 65, 65, 66, 66, 66, 66, 83, 58, 68]

/-- C5 counterexample: in the ASCII buffer
`b"@NTCAAAABBBBS:AS:B"` the marker `"S:"` occurs twice (first at index 12);
the characters following the first marker to the end of the buffer are
`b"AS:B"`, but the captured device identifier is only `b"A"` — Python's
`split("S:")[1]` stops at the next occurrence of the marker, so characters
after it are dropped. -/
theorem device_id_truncation_counterexample :
    handle_decode
        [64, 78, 84, 67, 65, 65, 65, 65, 66, 66, 66, 66, 83, 58, 65, 83, 58, 66]
        = some ([65, 65, 65, 65], [66, 66, 66, 66], [65]) ∧
      findMarker
          [64, 78, 84, 67, 65, 65, 65, 65, 66, 66, 66, 66, 83, 58, 65, 83, 58, 66]
          = some 12 ∧
      List.drop 14
          [64, 78, 84, 67, 65, 65, 65, 65, 66, 66, 66, 66, 83, 58, 65, 83, 58, 66]
          = [65, 83, 58, 66] ∧
      ([65] : List Nat) ≠ [65, 83, 58, 66] := by
  decide

/-- C5 amended: the captured device identifier is every character strictly
between the first occurrence of `"S:"` and the next occurrence of `"S:"`
(`split("S:")[1]`); only when the marker occurs exactly once is it every
character following the marker to the end of the decoded buffer. -/
theorem device_id_between_markers (p q u : List Nat)
    (hp : ¬ [83, 58] <:+: p) (hq : ¬ [83, 58] <:+: q) :
    split_after_first (p ++ 83 :: 58 :: q) = some q ∧
      split_after_first (p ++ 83 :: 58 :: (q ++ 83 :: 58 :: u)) = some q :=
  ⟨split_after_first_single p q hp hq, split_after_first_double p q u hp hq⟩

/-- Witness for `device_id_between_markers` with `p = b"x"`, `q = b"D"`,
`u = b"E"`. -/
theorem device_id_between_markers_witness :
    split_after_first ([120] ++ 83 :: 58 :: [68]) = some [68] ∧
      split_after_first ([120] ++ 83 :: 58 :: ([68] ++ 83 :: 58 :: [69]))
        = some [68] :=
  device_id_between_markers [120] [68] [69] (by decide) (by decide)

lemma streamStep_emit_device (env : TimeEnv) (dev frame : List Nat)
    (rec : Record) (h : Event.Emit rec ∈ (streamStep env dev frame).1) :
    rec.device_id = dev := by
  unfold streamStep at h
  by_cases hf0 : frame = []
  · simp [hf0] at h
  · rcases e : decode_telemetry frame with _ | ⟨ts, lat, lon, sp⟩
    · simp [hf0, e] at h
    · simp only [hf0, if_neg hf0, e] at h
      by_cases hy : env.currentYear = env.yearOf ts
      · simp [hy] at h
        rw [h]
        rfl
      · simp [hy] at h

/-- C10 counterexample: the 18-byte buffer `b"@NTCAAAABBBBS:ABS:"` ends
exactly with the marker `"S:"` (its last two bytes are 83, 58), yet handshake
decoding captures the device identifier `b"AB"`, not the empty string —
`split("S:")[1]` takes the characters after the first marker, not after the
last one. -/
theorem empty_device_id_counterexample :
    List.drop 16
        [64, 78, 84, 67, 65, 65, 65, 65, 66, 66, 66, 66, 83, 58, 65, 66, 83, 58]
        = [83, 58] ∧
      handle_decode
          [64, 78, 84, 67, 65, 65, 65, 65, 66, 66, 66, 66, 83, 58, 65, 66, 83, 58]
          = some ([65, 65, 65, 65], [66, 66, 66, 66], [65, 66]) ∧
      ([65, 66] : List Nat) ≠ [] := by
  decide

/-- C10 amended: an inbound handshake buffer ending in the marker `"S:"` —
with no earlier occurrence of the marker, all bytes ASCII, and at least the
12 header bytes before the marker — is decoded successfully with the empty
device identifier: the empty identifier is not rejected, the session sends a
reply and proceeds to streaming, and every record the streaming loop then
emits carries the empty device id. -/
theorem empty_device_id_accepted (p : List Nat) (hlen : 10 ≤ p.length)
    (hp : ¬ [83, 58] <:+: p) (ha : ∀ b ∈ p, b < 128) :
    (∃ reply, handle_step (p ++ [83, 58]) = some (reply, [])) ∧
      (∀ env : TimeEnv, ∀ frame : List Nat, ∀ rec : Record,
        Event.Emit rec ∈ (streamStep env [] frame).1 → rec.device_id = []) := by
  constructor
  · have hne : p ++ [83, 58] ≠ ([] : List Nat) := by simp
    have hAscii : isAscii (p ++ [83, 58]) = true := by
      simp only [isAscii, List.all_eq_true, decide_eq_true_eq]
      intro b hb
      rcases List.mem_append.mp hb with hb | hb
      · exact ha b hb
      · simp at hb
        rcases hb with rfl | rfl <;> omega
    have hsplit : split_after_first (p ++ [83, 58]) = some [] :=
      split_after_first_single p [] hp marker_not_in_empty
    have hdec : handle_decode (p ++ [83, 58]) =
        some (slice 4 8 (p ++ [83, 58]), slice 8 12 (p ++ [83, 58]), []) := by
      simp [handle_decode, hne, hAscii, hsplit]
    have hl48 : (slice 4 8 (p ++ [83, 58])).length = 4 := by
      simp only [slice, List.length_take, List.length_drop, List.length_append,
        List.length_cons, List.length_nil]
      omega
    have hl812 : (slice 8 12 (p ++ [83, 58])).length = 4 := by
      simp only [slice, List.length_take, List.length_drop, List.length_append,
        List.length_cons, List.length_nil]
      omega
    obtain ⟨f, hf1, _, _, _, _, _, _⟩ :=
      make_handshake_spec (slice 4 8 (p ++ [83, 58])) (slice 8 12 (p ++ [83, 58]))
        ack hl812 hl48 (by decide)
    exact ⟨f, by simp [handle_step, hdec, hf1]⟩
  · intro env frame rec h
    exact streamStep_emit_device env [] frame rec h

/-- Witness for `empty_device_id_accepted` at the 12-byte buffer
`b"XXXXAAAABBS:"`. -/
theorem empty_device_id_accepted_witness :
    (∃ reply,
        handle_step ([88, 88, 88, 88, 65, 65, 65, 65, 66, 66] ++ [83, 58])
          = some (reply, [])) ∧
      (∀ env : TimeEnv, ∀ frame : List Nat, ∀ rec : Record,
        Event.Emit rec ∈ (streamStep env [] frame).1 → rec.device_id = []) :=
  empty_device_id_accepted [88, 88, 88, 88, 65, 65, 65, 65, 66, 66]
    (by decide) (by decide) (by decide)

end NTC
